import Mathlib

/-!
Verification development for the AdIT orchestration engine
(companion-module-middleman-adit).

The definitions below are a shallow embedding of the engine source:
the `Engine` class (core orchestration: manager polling, definition
cache, instance registry synchronization, primary selection, variable
gating, reconnect scheduling) and the HTTP API client
(`fetchManualRules`, `fetchInstanceStatus`).

Modelling conventions:
- JavaScript `Map` (insertion ordered, keyed by instance id) is an
  association list `List (String × InstanceState)`; `get` is `find?`
  on the key, `set` on an existing key updates in place, `delete`
  removes the entry.
- JSON strings handled only as opaque fingerprints (the raw bodies
  kept by `_fetchWithJson` / stored in the cache) are modelled by the
  `Blob` type: `Blob.val v` stands for the canonical `JSON.stringify`
  of the structured value `v` (deterministic and injective on values),
  `Blob.garbage` stands for a non-empty string `JSON.parse` rejects,
  `Blob.empty` for the empty string (falsy in JS), and `Blob.missing`
  for an absent field.  JS truthiness of such a string is
  `Blob.truthy`; `JSON.parse` is `Blob.parse`.
- The three-valued primary pointer (`undefined` / `null` / id string)
  is the inductive `EPrim`.
- Timer handles are booleans (pending / not pending); the timer
  callback bodies are modelled as explicit state transformers.
- External emissions (host logging, `updateStatus`, `setVariableValues`,
  `initActions`) do not feed back into engine state; log emissions that
  claims mention are returned explicitly as `LogEvent` lists, the rest
  are dropped.
-/

/-- JS string holding a serialization of an `α` (see module docstring). -/
inductive Blob (α : Type) where
  | missing
  | empty
  | garbage
  | val (a : α)
deriving DecidableEq

namespace Blob

/-- JS truthiness of the blob field: absent and empty-string are falsy. -/
def truthy {α : Type} : Blob α → Bool
  | .missing => false
  | .empty => false
  | .garbage => true
  | .val _ => true

/-- `JSON.parse` on the blob: succeeds exactly on a well-formed serialization. -/
def parse {α : Type} : Blob α → Option α
  | .val a => some a
  | _ => none

end Blob

/-- A channel descriptor from the manager's `/channels` endpoint. -/
structure ChannelDef where
  ID : String
  Name : String
deriving DecidableEq

/-- A variable descriptor from the manager's `/variables` endpoint. -/
structure VariableDef where
  ID : String
  Name : String
deriving DecidableEq

/-- The JSON object embedded (as a string) in a messaging rule;
`RuleType` may be absent. -/
structure RuleContents where
  RuleType : Option Int
deriving DecidableEq

/-- A messaging rule from the manager's `/messaging-rules` endpoint.
The `JSON` field is the embedded JSON string. -/
structure Rule where
  ID : String
  Name : String
  JSON : Blob RuleContents
deriving DecidableEq

/-- An instance descriptor from the manager's `/instances` endpoint. -/
structure InstanceDef where
  ID : String
  Name : String
  Description : String
  IPAddress : String
  APIPortNumber : Nat
  ControlInterfacePortNumber : Nat
deriving DecidableEq

/-- api.js `fetchManualRules`, given the decoded body of the
`/messaging-rules` endpoint: keep the rules whose embedded JSON parses
and has `RuleType === 1`; a parse failure is caught and the rule dropped. -/
def fetchManualRules (rules : List Rule) : List Rule :=
  rules.filter fun rule =>
    match rule.JSON.parse with
    | some contents => contents.RuleType == some 1
    | none => false

/-- The `Status` field of an instance status body: either a flat number
or a nested object carrying the number in its own `Status` field. -/
inductive StatusShape where
  | flat (n : Int)
  | nested (n : Int)
deriving DecidableEq

/-- Decoded body of an instance's `/status` endpoint.  `Primary` is
absent (`none`) or a boolean. -/
structure StatusBody where
  Status : StatusShape
  Primary : Option Bool
deriving DecidableEq

/-- api.js `fetchInstanceStatus`, semantic part after a successful HTTP
fetch and JSON decode: `typeof data.Status === 'object'` selects the
nested number, and `data.Primary === true` gives the primary bit. -/
def decodeInstanceStatus (data : StatusBody) : Int × Bool :=
  let status := match data.Status with
    | .flat n => n
    | .nested n => n
  (status, data.Primary == some true)

/-- `this.effectivePrimaryId`: `undefined` (never determined), `null`
(determined, none available), or an instance id. -/
inductive EPrim where
  | undef
  | nullv
  | inst (id : String)
deriving DecidableEq

/-- WebSocket connection state of an instance. -/
inductive WsState where
  | disconnected
  | connecting
  | connected
deriving DecidableEq

/-- InstanceState, the per-instance record created by
`_createInstanceState` and mutated in place by the engine.  The `ws`
object is tracked by presence (`hasWs`); timer handles by a pending bit. -/
structure InstanceState where
  id : String
  name : String
  description : String
  ip : String
  apiPort : Nat
  controlPort : Nat
  healthy : Bool
  primary : Bool
  lastStatus : Option Int
  lastStatusPoll : Int
  statusPollFailures : Nat
  hasWs : Bool
  wsState : WsState
  reconnectTimer : Bool
  pendingPong : Bool
  pongTimer : Bool
deriving DecidableEq

/-- The cache version constant. -/
def CACHE_VERSION : Int := 1

/-- The cache record persisted in `config.definition_cache`.  Fields an
arbitrary JSON object may lack are `Option`s; the three blobs use
`Blob.missing` for absence. -/
structure CacheRecord where
  version : Option Int
  timestamp : Int
  managerIp : Option String
  channelId : Option String
  channelName : Option String
  instancesJson : Blob (List InstanceDef)
  variablesJson : Blob (List VariableDef)
  rulesJson : Blob (List Rule)
deriving DecidableEq

/-- The `config.definition_cache` string: empty string (falsy),
the cleared marker string, a corrupt string `JSON.parse` rejects, or a
serialized cache record. -/
inductive CacheSlot where
  | empty
  | cleared
  | corrupt
  | store (c : CacheRecord)
deriving DecidableEq

/-- Module configuration fields the engine reads. -/
structure Config where
  manager_ip : String
  manager_port : Nat
  channel : String
  control_interface_id : String
  verbose : Bool
  definition_cache : CacheSlot
deriving DecidableEq

/-- Module status level (subset the engine emits). -/
inductive ModStatus where
  | ok
  | warning
  | disconnected
deriving DecidableEq

/-- An entry of the issue list built by `_updateModuleStatus`. -/
inductive Issue where
  | managerUnreach
  | noChannel
  | noInstancesRegistered
  | noInstancesConnected
  | noPrimary
deriving DecidableEq

/-- The status message: either the joined issue list or the all-good
message naming the primary (display strings abstracted to their data). -/
inductive StatusMsg where
  | issues (l : List Issue)
  | okPrimary (p : EPrim)
deriving DecidableEq

/-- Log events the verified claims mention (display strings abstracted
to the ids they list). -/
inductive LogEvent where
  | splitBrainStay (currentId : String) (others : List String)
  | splitBrainSelect (contenders : List String) (selected : String)
  | fallbackWarn (selected : String)
  | primaryChanged (oldId newId : EPrim)
  | noHealthy
  | snapshot (id : String)
deriving DecidableEq

/-- The instance registry: JS `Map` as an insertion-ordered association
list keyed by instance id. -/
abbrev Registry := List (String × InstanceState)

/-- `Map.get`. -/
def Registry.lookup (r : Registry) (k : String) : Option InstanceState :=
  (r.find? fun p => p.1 == k).map (·.2)

/-- `Map.has`. -/
def Registry.hasKey (r : Registry) (k : String) : Bool :=
  r.any fun p => p.1 == k

/-- `Map.delete`. -/
def Registry.del (r : Registry) (k : String) : Registry :=
  r.filter fun p => p.1 != k

/-- In-place mutation of the record stored under a key (JS object
mutation through the `Map`). -/
def Registry.update (r : Registry) (k : String) (f : InstanceState → InstanceState) : Registry :=
  r.map fun p => if p.1 == k then (p.1, f p.2) else p

/-- Every stored record's `id` field equals its map key (the engine
establishes this in `_createInstanceState` / `_syncInstances`). -/
def Registry.wellKeyed (r : Registry) : Bool :=
  r.all fun p => p.2.id == p.1

/-- Engine state: the mutable fields of the `Engine` class (timer
handles for the three polls omitted; they carry no data). -/
structure EngineState where
  config : Config
  instances : Registry
  effectivePrimaryId : EPrim
  instanceOrder : List String
  channelDefinitions : List ChannelDef
  manualRuleDefinitions : List Rule
  variableDefinitions : List VariableDef
  lastChannelId : Option String
  lastRulesJson : Option (Blob (List Rule))
  lastVariablesJson : Option (Blob (List VariableDef))
  lastVariableDefCount : Nat
  currentStatus : Option ModStatus
  currentStatusMessage : Option StatusMsg
  managerReachable : Option Bool
  loadedFromCache : Bool
  cachedChannelId : Option String
  cachedChannelName : Option String
  running : Bool
deriving DecidableEq

/-- `getEffectivePrimaryId`: `this.effectivePrimaryId ?? null` —
the nullish coalescing collapses only `undefined` and `null` to `null`. -/
def getEffectivePrimaryId (st : EngineState) : Option String :=
  match st.effectivePrimaryId with
  | .inst id => some id
  | .undef => none
  | .nullv => none

/-- The parsed `<Variable ID="...">value</Variable>` element:
`variable.$.ID` and `variable._`. -/
structure VarFrame where
  ID : String
  value : String
deriving DecidableEq

/-- `_handleVariableUpdate`: the `(variableId, value)` pair passed to
`module.setVariableValues`, or `none` when the update is dropped.  The
gate is `instanceId === this.effectivePrimaryId` (strict equality, so a
string id never equals `undefined` or `null`). -/
def handleVariableUpdate (st : EngineState) (instanceId : String) (v : VarFrame) :
    Option (String × String) :=
  match st.effectivePrimaryId with
  | .inst pid => if instanceId == pid then some (v.ID, v.value) else none
  | .undef => none
  | .nullv => none

/-- `_clearCache`: reset `config.definition_cache` to the cleared marker
unless it is already falsy or already cleared. -/
def clearCache (cfg : Config) : Config :=
  match cfg.definition_cache with
  | .empty => cfg
  | .cleared => cfg
  | .corrupt => { cfg with definition_cache := .cleared }
  | .store _ => { cfg with definition_cache := .cleared }

/-- `_loadCache`: parse and validate `config.definition_cache` against
the current configuration; on every rejecting branch other than the
falsy-field branch the cache is cleared.  The cleared marker parses to
an empty object whose `version` is absent, so it fails the version
check.  Returns the loaded record (or `none`) and the possibly mutated
configuration. -/
def loadCache (cfg : Config) : Option CacheRecord × Config :=
  match cfg.definition_cache with
  | .empty => (none, cfg)
  | .corrupt => (none, clearCache cfg)
  | .cleared => (none, clearCache cfg)
  | .store cache =>
    if cache.version != some CACHE_VERSION then (none, clearCache cfg)
    else if cache.managerIp != some cfg.manager_ip then (none, clearCache cfg)
    else if cache.channelId != some cfg.channel then (none, clearCache cfg)
    else if !cache.instancesJson.truthy || !cache.variablesJson.truthy
        || !cache.rulesJson.truthy then (none, clearCache cfg)
    else (some cache, cfg)

/-- `_saveCache`: re-load the existing cache (possibly clearing an
invalid one), skip the write when all three blobs are byte-identical to
the persisted ones, otherwise persist a fresh record stamped with the
current version, configuration and time. -/
def saveCache (cfg : Config) (instancesJson : Blob (List InstanceDef))
    (variablesJson : Blob (List VariableDef)) (rulesJson : Blob (List Rule))
    (channelName : String) (now : Int) : Config :=
  let loaded := loadCache cfg
  let cfg2 := loaded.2
  let written : Config := { cfg2 with definition_cache := .store {
      version := some CACHE_VERSION
      timestamp := now
      managerIp := some cfg2.manager_ip
      channelId := some cfg2.channel
      channelName := some channelName
      instancesJson := instancesJson
      variablesJson := variablesJson
      rulesJson := rulesJson } }
  match loaded.1 with
  | some existing =>
    if existing.instancesJson == instancesJson && existing.variablesJson == variablesJson
        && existing.rulesJson == rulesJson then cfg2
    else written
  | none => written

/-- A concrete configuration with no persisted cache. -/
def cfgA : Config :=
  { manager_ip := "10.0.0.1", manager_port := 8000, channel := "CH1",
    control_interface_id := "UUID-A", verbose := false, definition_cache := .empty }

/-- `currentPrimary` as `_determinePrimary` (and `_updateModuleStatus`)
computes it: `this.effectivePrimaryId ? this.instances.get(...) : null`.
JS truthiness makes the empty-string id behave like no primary. -/
def currentPrimaryOf (st : EngineState) : Option InstanceState :=
  match st.effectivePrimaryId with
  | .inst id => if id == "" then none else st.instances.lookup id
  | .undef => none
  | .nullv => none

/-- The record a given id contributes to `_getHealthyInstancesInOrder`:
present and healthy, or nothing. -/
def healthyRecordAt (st : EngineState) (id : String) : Option InstanceState :=
  match st.instances.lookup id with
  | some s => if s.healthy then some s else none
  | none => none

/-- `_getHealthyInstancesInOrder`: healthy instances in manager list order. -/
def healthyInstancesInOrder (st : EngineState) : List InstanceState :=
  st.instanceOrder.filterMap (healthyRecordAt st)

/-- `_checkSplitBrain`: other healthy instances also reporting primary,
logged without switching.  The emitted event carries their ids. -/
def checkSplitBrain (st : EngineState) (currentPrimary : InstanceState) : List LogEvent :=
  let others := st.instances.filterMap fun p =>
    if p.1 != currentPrimary.id && p.2.healthy && p.2.primary then some p.1 else none
  if others.isEmpty then [] else [.splitBrainStay currentPrimary.id others]

/-- `_logVariableSnapshot`: verbose-only debug note naming the new primary. -/
def logVariableSnapshot (st : EngineState) : List LogEvent :=
  if st.config.verbose then
    match currentPrimaryOf st with
    | some p => [.snapshot p.id]
    | none => []
  else []

/-- Guard of the first sticky rule in `_determinePrimary`:
`currentPrimary && currentPrimary.healthy && currentPrimary.primary`. -/
def stickyValidApplies (st : EngineState) : Bool :=
  match currentPrimaryOf st with
  | some c => c.healthy && c.primary
  | none => false

/-- Guard of the second sticky rule in `_determinePrimary`:
`currentPrimary && currentPrimary.healthy && reportingPrimary.length === 0`,
where `reportingPrimary` is the healthy instances that report primary. -/
def stickyUncontestedApplies (st : EngineState) : Bool :=
  match currentPrimaryOf st with
  | some c => c.healthy && ((healthyInstancesInOrder st).filter fun s => s.primary).isEmpty
  | none => false

/-- `_determinePrimary`: sticky-valid (with split-brain check), then
sticky-uncontested, then claimed election / fallback / none, assigning
`effectivePrimaryId` and logging only on an actual transition. -/
def determinePrimary (st : EngineState) : EngineState × List LogEvent :=
  if stickyValidApplies st then
    (st, match currentPrimaryOf st with | some c => checkSplitBrain st c | none => [])
  else if stickyUncontestedApplies st then
    (st, [])
  else
    let healthyInstances := healthyInstancesInOrder st
    let reportingPrimary := healthyInstances.filter fun s => s.primary
    let selection : Option InstanceState × List LogEvent × Bool :=
      match reportingPrimary with
      | [] =>
        match healthyInstances with
        | [] => (none, [], false)
        | h :: _ => (some h, [], true)
      | p :: rest =>
        (some p,
         if rest.isEmpty then []
         else [.splitBrainSelect (reportingPrimary.map fun s => s.id) p.id],
         false)
    let newPrimary := selection.1
    let selectLogs := selection.2.1
    let isFallback := selection.2.2
    let newPrimaryId : EPrim :=
      match newPrimary with
      | some s => .inst s.id
      | none => .nullv
    if newPrimaryId == st.effectivePrimaryId then (st, selectLogs)
    else
      let st2 := { st with effectivePrimaryId := newPrimaryId }
      match newPrimary with
      | some s =>
        (st2, selectLogs ++ (if isFallback then [.fallbackWarn s.id] else [])
          ++ [.primaryChanged st.effectivePrimaryId newPrimaryId]
          ++ logVariableSnapshot st2)
      | none =>
        (st2, selectLogs ++ [.noHealthy] ++ logVariableSnapshot st2)

/-- Whether the registry holds a healthy, primary-reporting record under `id`. -/
def isHealthyPrimaryAt (st : EngineState) (id : String) : Bool :=
  match st.instances.lookup id with
  | some s => s.healthy && s.primary
  | none => false

/-- Whether the registry holds a healthy record under `id`. -/
def isHealthyAt (st : EngineState) (id : String) : Bool :=
  match st.instances.lookup id with
  | some s => s.healthy
  | none => false

/-- An instance record with the given id, health and primary bits
(remaining fields fixed). -/
def mkInst (id : String) (healthy primary : Bool) : InstanceState :=
  { id := id, name := id, description := "", ip := "10.0.0.2", apiPort := 8001,
    controlPort := 9091, healthy := healthy, primary := primary, lastStatus := some 3,
    lastStatusPoll := 0, statusPollFailures := 0, hasWs := healthy,
    wsState := if healthy then .connected else .disconnected,
    reconnectTimer := false, pendingPong := false, pongTimer := false }

/-- An engine state over `cfgA` with the given registry, order and
primary pointer. -/
def baseEngine (insts : Registry) (ord : List String) (ep : EPrim) : EngineState :=
  { config := cfgA, instances := insts, effectivePrimaryId := ep, instanceOrder := ord,
    channelDefinitions := [], manualRuleDefinitions := [], variableDefinitions := [],
    lastChannelId := none, lastRulesJson := none, lastVariablesJson := none,
    lastVariableDefCount := 0, currentStatus := none, currentStatusMessage := none,
    managerReachable := some true, loadedFromCache := false, cachedChannelId := none,
    cachedChannelName := none, running := true }

/-- Split-brain scenario while the sticky-valid rule holds: two healthy
instances both report primary; the first is the current primary. -/
def w2 : EngineState :=
  baseEngine [("A", mkInst "A" true true), ("B", mkInst "B" true true)]
    ["A", "B"] (.inst "A")

/-- Current primary healthy but not reporting primary; the only other
instance reports primary but is unhealthy. -/
def w3 : EngineState :=
  baseEngine [("A", mkInst "A" true false), ("B", mkInst "B" false true)]
    ["A", "B"] (.inst "A")

/-- Neither sticky rule applies: the current primary is unhealthy, one
healthy instance reports primary, another is merely healthy. -/
def w4 : EngineState :=
  baseEngine [("A", mkInst "A" false false), ("B", mkInst "B" true true),
      ("C", mkInst "C" true false)]
    ["A", "B", "C"] (.inst "A")

/-- `_openInstanceConnection`: only from the Disconnected state; sets
Connecting and allocates the transport. -/
def openInstanceConnection (st : EngineState) (instanceId : String) : EngineState :=
  match st.instances.lookup instanceId with
  | none => st
  | some s =>
    if s.wsState != WsState.disconnected then st
    else { st with instances := st.instances.update instanceId (fun q =>
        { q with wsState := .connecting, hasWs := true }) }

/-- `_closeInstanceConnection`: clears the reconnect and pong timers and
the pending-pong flag, drops the transport, marks Disconnected; the
record stays registered. -/
def closeInstanceConnection (st : EngineState) (instanceId : String) : EngineState :=
  match st.instances.lookup instanceId with
  | none => st
  | some _ =>
    { st with instances := st.instances.update instanceId (fun q =>
        { q with
          reconnectTimer := false
          pongTimer := false
          pendingPong := false
          hasWs := false
          wsState := .disconnected }) }

/-- The body of the timer armed by `_scheduleReconnect`, run when it
fires: clear the captured record's reconnect handle (a no-op on the
registry when the id was removed, since the captured object is then
unreachable), and open a connection only if the engine is still running
and the id is still registered.  The boolean reports whether
`_openInstanceConnection` was invoked. -/
def reconnectFire (st : EngineState) (instanceId : String) : EngineState × Bool :=
  let st1 := { st with instances := st.instances.update instanceId (fun q =>
      { q with reconnectTimer := false }) }
  if !st1.running || !(st1.instances.hasKey instanceId) then (st1, false)
  else (openInstanceConnection st1 instanceId, true)

/-- `_createInstanceState`. -/
def createInstanceState (inst : InstanceDef) : InstanceState :=
  { id := inst.ID, name := inst.Name, description := inst.Description,
    ip := inst.IPAddress, apiPort := inst.APIPortNumber,
    controlPort := inst.ControlInterfacePortNumber,
    healthy := false, primary := false, lastStatus := none, lastStatusPoll := 0,
    statusPollFailures := 0, hasWs := false, wsState := .disconnected,
    reconnectTimer := false, pendingPong := false, pongTimer := false }

/-- `_syncInstances`: close and drop registered ids missing from the
manager list, register and open new ones, update metadata in place for
existing ones, and store the manager ordering. -/
def syncInstances (st : EngineState) (managerInstances : List InstanceDef) : EngineState :=
  let managerIds := managerInstances.map fun i => i.ID
  let toRemove := st.instances.filterMap fun p =>
    if managerIds.contains p.1 then none else some p.1
  let st := toRemove.foldl (fun acc instanceId =>
    let acc := closeInstanceConnection acc instanceId
    { acc with instances := acc.instances.del instanceId }) st
  let st := managerInstances.foldl (fun acc inst =>
    if acc.instances.hasKey inst.ID then
      { acc with instances := acc.instances.update inst.ID (fun q =>
          { q with
            name := inst.Name
            description := inst.Description
            ip := inst.IPAddress
            apiPort := inst.APIPortNumber
            controlPort := inst.ControlInterfacePortNumber }) }
    else
      let acc := { acc with instances := acc.instances ++ [(inst.ID, createInstanceState inst)] }
      openInstanceConnection acc inst.ID) st
  { st with instanceOrder := managerInstances.map fun i => i.ID }

/-- `_getChannelName`: resolve a channel id to its name, or the empty
string. -/
def getChannelName (st : EngineState) (channelId : String) : String :=
  match st.channelDefinitions.find? fun ch => ch.ID == channelId with
  | some ch => ch.Name
  | none => ""

/-- Length of the definition list `_updateModuleVariableDefinitions`
builds: 4 fixed entries, 7 per ordered id with a registry record, one
per manager-defined variable. -/
def variableDefCount (st : EngineState) : Nat :=
  4 + 7 * (st.instanceOrder.filter fun id => st.instances.hasKey id).length
    + st.variableDefinitions.length

/-- `_updateModuleVariableDefinitions`: re-register and record the new
count only when it changed (the list itself goes to the host). -/
def updateModuleVariableDefinitions (st : EngineState) : EngineState :=
  let n := variableDefCount st
  if n != st.lastVariableDefCount then { st with lastVariableDefCount := n } else st

/-- The issue list, status level and message `_updateModuleStatus`
computes from current state. -/
def computeStatus (st : EngineState) : ModStatus × StatusMsg :=
  let hasChannel := st.config.channel != "" && st.config.channel != "none"
  let mgrUp := st.managerReachable == some true
  let issues1 : List Issue :=
    (if !mgrUp then [Issue.managerUnreach] else []) ++
    (if mgrUp && !hasChannel then [Issue.noChannel] else [])
  let connectedCount := (st.instances.filter fun p => p.2.wsState == WsState.connected).length
  let primary := currentPrimaryOf st
  let issues : List Issue :=
    issues1 ++
    (if hasChannel then
      if st.instances.isEmpty then [Issue.noInstancesRegistered]
      else if connectedCount == 0 then [Issue.noInstancesConnected]
      else if primary.isNone then [Issue.noPrimary]
      else []
    else [])
  let managerDown := !mgrUp
  let instancesDown := hasChannel && !st.instances.isEmpty && connectedCount == 0
  if issues.isEmpty then (ModStatus.ok, StatusMsg.okPrimary st.effectivePrimaryId)
  else if managerDown && instancesDown then (ModStatus.disconnected, StatusMsg.issues issues)
  else (ModStatus.warning, StatusMsg.issues issues)

/-- `_updateModuleStatus`: push the computed status to the host only on
an actual change, tracked in `currentStatus` / `currentStatusMessage`. -/
def updateModuleStatus (st : EngineState) : EngineState :=
  let result := computeStatus st
  if some result.1 != st.currentStatus || some result.2 != st.currentStatusMessage then
    { st with currentStatus := some result.1, currentStatusMessage := some result.2 }
  else st

/-- JS `a || b` over nullable strings (empty string falsy), as used for
`cache.channelName || cache.channelId`. -/
def orTruthy (a b : Option String) : Option String :=
  match a with
  | some s => if s == "" then b else some s
  | none => b

/-- `_tryLoadFromCache`: load and validate the cache; on success parse
the three blobs, hydrate definitions, sync the registry, update the
fingerprints and re-register variable definitions; a blob parse failure
clears the cache. -/
def tryLoadFromCache (st : EngineState) : EngineState :=
  let loaded := loadCache st.config
  let st := { st with config := loaded.2 }
  match loaded.1 with
  | none => st
  | some cache =>
    match cache.instancesJson.parse, cache.variablesJson.parse, cache.rulesJson.parse with
    | some instances, some vars, some rules =>
      let st := { st with
        cachedChannelId := cache.channelId,
        cachedChannelName := orTruthy cache.channelName cache.channelId,
        loadedFromCache := true,
        manualRuleDefinitions := rules,
        variableDefinitions := vars }
      let st := syncInstances st instances
      let st := { st with
        lastChannelId := cache.channelId,
        lastRulesJson := some cache.rulesJson,
        lastVariablesJson := some cache.variablesJson }
      updateModuleVariableDefinitions st
    | _, _, _ => { st with config := clearCache st.config }

/-- Outcome of the concurrent rules / variables / instances fetch of a
manager-poll cycle: all three succeed or the cycle is a fetch failure. -/
inductive FetchTrio where
  | failure
  | success (rules : List Rule) (vars : List VariableDef) (instances : List InstanceDef)

/-- The channel-data phase of `_pollManager` (after a successful
channels fetch, with a channel selected): on success apply definitions,
fingerprints, cache and registry; on failure mark the manager
unreachable when connections exist, attempt the cold-start cache load,
and refresh variable definitions and status either way.  The fetched
JSON strings are the canonical serializations of the fetched data
(`_fetchWithJson`); `initActions` and log emissions are external. -/
def pollChannelPhase (st : EngineState) (trio : FetchTrio) (now : Int) : EngineState :=
  match trio with
  | .success rules vars instances =>
    let rulesJson : Blob (List Rule) := Blob.val rules
    let variablesJson : Blob (List VariableDef) := Blob.val vars
    let instancesJson : Blob (List InstanceDef) := Blob.val instances
    let st := { st with manualRuleDefinitions := rules, variableDefinitions := vars }
    let st := { st with
      lastChannelId := some st.config.channel
      lastRulesJson := some rulesJson
      lastVariablesJson := some variablesJson }
    let channelName := getChannelName st st.config.channel
    let st := { st with
      config := saveCache st.config instancesJson variablesJson rulesJson channelName now }
    let st := syncInstances st instances
    let st := updateModuleVariableDefinitions st
    updateModuleStatus st
  | .failure =>
    let st :=
      if 0 < st.instances.length ∧ st.managerReachable = some true then
        { st with managerReachable := some false }
      else st
    let st :=
      if st.instances.isEmpty && !st.loadedFromCache then tryLoadFromCache st
      else st
    let st := updateModuleVariableDefinitions st
    updateModuleStatus st

/-- Cold-start poll state: channel selected, empty registry, nothing
loaded from cache yet, corrupt persisted cache, manager reachable. -/
def c5state : EngineState :=
  { baseEngine [] [] EPrim.undef with
    config := { cfgA with definition_cache := .corrupt } }

/-- Poll state with a live connection and a corrupt persisted cache. -/
def c5live : EngineState :=
  { baseEngine [("A", mkInst "A" true true)] ["A"] (.inst "A") with
    config := { cfgA with definition_cache := .corrupt } }

/-- A stopped engine still holding one registered instance. -/
def w10 : EngineState :=
  { baseEngine [("A", mkInst "A" true false)] ["A"] (.inst "A") with running := false }

/-- Claim C1: for every inbound Variable frame, the engine forwards the
(variableId, value) pair to the host's variable store if and only if
the instance id the frame arrived from equals the effective primary id
at the moment the update is processed; a Variable update from any other
instance is never written to the host's variable store. -/
theorem claim_C1_variable_gate (st : EngineState) (instanceId : String) (v : VarFrame) :
    (handleVariableUpdate st instanceId v ≠ none ↔
      st.effectivePrimaryId = EPrim.inst instanceId) ∧
    (handleVariableUpdate st instanceId v = none ∨
      handleVariableUpdate st instanceId v = some (v.ID, v.value)) := by
  constructor
  · constructor
    · intro h
      unfold handleVariableUpdate at h
      cases hep : st.effectivePrimaryId with
      | inst pid =>
        rw [hep] at h
        by_cases hid : instanceId == pid
        · simp only [beq_iff_eq] at hid
          rw [hid]
        · simp [hid] at h
      | undef => rw [hep] at h; simp at h
      | nullv => rw [hep] at h; simp at h
    · intro h
      unfold handleVariableUpdate
      rw [h]
      simp
  · unfold handleVariableUpdate
    cases st.effectivePrimaryId with
    | inst pid =>
      by_cases hid : instanceId == pid
      · simp [hid]
      · simp [hid]
    | undef => simp
    | nullv => simp

/-- Claim C6: for every rules response, fetchManualRules returns exactly
the rules whose embedded JSON string decodes successfully and whose
decoded RuleType equals 1, in their original order; every rule with
RuleType not equal to 1 and every rule whose embedded JSON fails to
decode is excluded without error. -/
theorem claim_C6_manual_rules_filter (rules : List Rule) :
    (fetchManualRules rules).Sublist rules ∧
    (∀ r : Rule, r ∈ fetchManualRules rules ↔
      (r ∈ rules ∧ ∃ contents, r.JSON.parse = some contents ∧ contents.RuleType = some 1)) := by
  constructor
  · exact List.filter_sublist rules
  · intro r
    unfold fetchManualRules
    rw [List.mem_filter]
    constructor
    · rintro ⟨hm, hp⟩
      refine ⟨hm, ?_⟩
      cases hj : r.JSON.parse with
      | some contents =>
        rw [hj] at hp
        simp only [beq_iff_eq] at hp
        exact ⟨contents, rfl, hp⟩
      | none => rw [hj] at hp; exact absurd hp (by simp)
    · rintro ⟨hm, contents, hj, ht⟩
      refine ⟨hm, ?_⟩
      rw [hj]
      simp only [ht, beq_iff_eq]

/-- Claim C7: for every successfully decoded instance-status body,
fetchInstanceStatus yields the same semantic tuple (statusCode, primary)
for both accepted shapes: flat `Status: N` and nested
`Status: {Status: N}`; in both cases the primary bit is taken from the
top-level Primary field. -/
theorem claim_C7_status_shapes (n : Int) (pr : Option Bool) :
    decodeInstanceStatus { Status := .flat n, Primary := pr } =
      decodeInstanceStatus { Status := .nested n, Primary := pr } ∧
    decodeInstanceStatus { Status := .flat n, Primary := pr } = (n, pr == some true) := by
  constructor <;> rfl

/-- Claim C9: the public getter getEffectivePrimaryId returns either an
instance id or null, never the internal undefined marker: the undefined
initial selector state is collapsed to null at the public interface, and
when an effective primary is set the getter returns exactly that id. -/
theorem claim_C9_getter_collapses_undef (st : EngineState) :
    (st.effectivePrimaryId = EPrim.undef → getEffectivePrimaryId st = none) ∧
    (st.effectivePrimaryId = EPrim.nullv → getEffectivePrimaryId st = none) ∧
    (∀ id, st.effectivePrimaryId = EPrim.inst id → getEffectivePrimaryId st = some id) := by
  refine ⟨?_, ?_, ?_⟩ <;> intro h₁ <;> try intro h₂
  · unfold getEffectivePrimaryId; rw [h₁]
  · unfold getEffectivePrimaryId; rw [h₁]
  · unfold getEffectivePrimaryId; rw [h₂]

/-- A valid stored cache record loads back unchanged. -/
lemma loadCache_store_of_valid (cfg : Config) (c : CacheRecord)
    (hslot : cfg.definition_cache = .store c)
    (h1 : c.version = some CACHE_VERSION) (h2 : c.managerIp = some cfg.manager_ip)
    (h3 : c.channelId = some cfg.channel)
    (h4 : c.instancesJson.truthy = true) (h5 : c.variablesJson.truthy = true)
    (h6 : c.rulesJson.truthy = true) :
    loadCache cfg = (some c, cfg) := by
  unfold loadCache
  rw [hslot]
  simp [h1, h2, h3, h4, h5, h6]

/-- What a successful load certifies about the record and configuration. -/
lemma loadCache_some_spec (cfg : Config) (c : CacheRecord)
    (h : (loadCache cfg).1 = some c) :
    (loadCache cfg).2 = cfg ∧ c.version = some CACHE_VERSION ∧
    c.managerIp = some cfg.manager_ip ∧ c.channelId = some cfg.channel ∧
    c.instancesJson.truthy = true ∧ c.variablesJson.truthy = true ∧
    c.rulesJson.truthy = true := by
  unfold loadCache at h
  split at h
  · simp at h
  · simp at h
  · simp at h
  · rename_i cache hslot
    split at h
    · simp at h
    · split at h
      · simp at h
      · split at h
        · simp at h
        · split at h
          · simp at h
          · rename_i hv hm hc hb
            simp only [Option.some.injEq] at h
            subst h
            rw [Bool.not_eq_true] at hv hm hc hb
            rw [bne_eq_false_iff_eq] at hv hm hc
            simp only [Bool.or_eq_false_iff, Bool.not_eq_false'] at hb
            obtain ⟨⟨hb1, hb2⟩, hb3⟩ := hb
            rw [loadCache_store_of_valid cfg cache hslot hv hm hc hb1 hb2 hb3]
            exact ⟨rfl, hv, hm, hc, hb1, hb2, hb3⟩

/-- Claim C8 (amended) : the cache save/load round-trip holds for every
triple of truthy (non-empty) blob strings: with configuration and cache
version unchanged between the calls, after save(B) a subsequent load
returns a cache record whose three blobs are byte-identical to B.  (The
original claim, quantified over all blob strings, fails when a blob is
the empty string: the load-side field-presence check treats it as
missing.) -/
theorem claim_C8_cache_roundtrip (cfg : Config)
    (iJ : Blob (List InstanceDef)) (vJ : Blob (List VariableDef)) (rJ : Blob (List Rule))
    (channelName : String) (now : Int)
    (hiJ : iJ.truthy = true) (hvJ : vJ.truthy = true) (hrJ : rJ.truthy = true) :
    ∃ c, (loadCache (saveCache cfg iJ vJ rJ channelName now)).1 = some c ∧
      c.instancesJson = iJ ∧ c.variablesJson = vJ ∧ c.rulesJson = rJ := by
  rcases hl : loadCache cfg with ⟨ores, cfg2⟩
  simp only [saveCache, hl]
  cases ores with
  | none =>
    exact ⟨⟨some CACHE_VERSION, now, some cfg2.manager_ip, some cfg2.channel,
        some channelName, iJ, vJ, rJ⟩,
      by rw [loadCache_store_of_valid _ _ rfl rfl rfl rfl hiJ hvJ hrJ], rfl, rfl, rfl⟩
  | some existing =>
    dsimp only
    have hl1 : (loadCache cfg).1 = some existing := by rw [hl]
    obtain ⟨hcfg, hv, hm, hc, hbi, hbv, hbr⟩ := loadCache_some_spec cfg existing hl1
    rw [hl] at hcfg
    simp only at hcfg
    by_cases heq : (existing.instancesJson == iJ && existing.variablesJson == vJ
        && existing.rulesJson == rJ) = true
    · rw [if_pos heq]
      simp only [Bool.and_eq_true, beq_iff_eq] at heq
      obtain ⟨⟨e1, e2⟩, e3⟩ := heq
      refine ⟨existing, ?_, e1, e2, e3⟩
      rw [hcfg]
      exact hl1
    · rw [if_neg heq]
      exact ⟨⟨some CACHE_VERSION, now, some cfg2.manager_ip, some cfg2.channel,
          some channelName, iJ, vJ, rJ⟩,
        by rw [loadCache_store_of_valid _ _ rfl rfl rfl rfl hiJ hvJ hrJ], rfl, rfl, rfl⟩

/-- Claim C8, counterexample to the original statement: saving three
empty-string blobs and loading back under the same configuration and
version yields None, not a record whose blobs equal the saved ones. -/
theorem claim_C8_counterexample :
    (loadCache (saveCache cfgA Blob.empty Blob.empty Blob.empty "News" 0)).1 = none := by
  rfl

/-- Witness for the amended C8 at concrete truthy blobs. -/
theorem claim_C8_witness :
    ∃ c, (loadCache (saveCache cfgA (Blob.val []) (Blob.val []) (Blob.val []) "News" 5)).1
        = some c ∧
      c.instancesJson = Blob.val [] ∧ c.variablesJson = Blob.val [] ∧
      c.rulesJson = Blob.val [] :=
  claim_C8_cache_roundtrip cfgA (Blob.val []) (Blob.val []) (Blob.val []) "News" 5 rfl rfl rfl

/-- The record a given id contributes to the reporting-primary subset. -/
def healthyPrimaryRecordAt (st : EngineState) (id : String) : Option InstanceState :=
  match st.instances.lookup id with
  | some s => if s.healthy && s.primary then some s else none
  | none => none

/-- A successful current-primary lookup pins down the pointer and registry entry. -/
lemma currentPrimaryOf_some_spec (st : EngineState) (c : InstanceState)
    (h : currentPrimaryOf st = some c) :
    ∃ pid, st.effectivePrimaryId = EPrim.inst pid ∧ (pid == "") = false ∧
      st.instances.lookup pid = some c := by
  unfold currentPrimaryOf at h
  cases hep : st.effectivePrimaryId with
  | inst id =>
    rw [hep] at h
    dsimp only at h
    by_cases hid : (id == "") = true
    · rw [if_pos hid] at h; exact absurd h (by simp)
    · rw [if_neg hid] at h
      exact ⟨id, rfl, Bool.not_eq_true _ ▸ hid, h⟩
  | undef => rw [hep] at h; exact absurd h (by simp)
  | nullv => rw [hep] at h; exact absurd h (by simp)

/-- In a well-keyed registry, a looked-up record carries the key as id. -/
lemma lookup_wellKeyed (r : Registry) (id : String) (s : InstanceState)
    (hwk : r.wellKeyed = true) (h : r.lookup id = some s) : s.id = id := by
  unfold Registry.lookup at h
  cases hf : r.find? (fun p => p.1 == id) with
  | none => rw [hf] at h; simp at h
  | some pr =>
    rw [hf] at h
    simp only [Option.map_some', Option.some.injEq] at h
    have hmem : pr ∈ r := List.mem_of_find?_eq_some hf
    have hpred := List.find?_some hf
    simp only at hpred
    unfold Registry.wellKeyed at hwk
    rw [List.all_eq_true] at hwk
    have hkey : pr.2.id = pr.1 := by simpa using hwk pr hmem
    rw [← h, hkey]
    simpa using hpred

/-- A looked-up record is stored in the registry under some key. -/
lemma lookup_mem (r : Registry) (id : String) (s : InstanceState)
    (h : r.lookup id = some s) : ∃ k, (k, s) ∈ r := by
  unfold Registry.lookup at h
  cases hf : r.find? (fun p => p.1 == id) with
  | none => rw [hf] at h; simp at h
  | some pr =>
    rw [hf] at h
    simp only [Option.map_some', Option.some.injEq] at h
    exact ⟨pr.1, by rw [← h, Prod.mk.eta]; exact List.mem_of_find?_eq_some hf⟩

/-- With unique keys, every stored entry is found by lookup. -/
lemma lookup_of_mem_nodup (r : Registry) (k : String) (s : InstanceState)
    (hnd : (r.map Prod.fst).Nodup) (hmem : (k, s) ∈ r) :
    r.lookup k = some s := by
  induction r with
  | nil => cases hmem
  | cons p t ih =>
    rw [List.map_cons, List.nodup_cons] at hnd
    obtain ⟨hni, hndt⟩ := hnd
    rcases List.mem_cons.mp hmem with heq | hmemt
    · rw [← heq]
      unfold Registry.lookup
      rw [List.find?_cons_of_pos _ (by simp)]
      rfl
    · have hk : (p.1 == k) = false := by
        rw [beq_eq_false_iff_ne]
        intro hkk
        exact hni (hkk ▸ (List.mem_map.mpr ⟨(k, s), hmemt, rfl⟩))
      unfold Registry.lookup
      rw [List.find?_cons_of_neg _ (by simp [hk])]
      exact ih hndt hmemt

/-- Head of a filterMap through the first input the function accepts. -/
lemma head_filterMap_eq_bind_find {α β : Type} (f : α → Option β) (l : List α) :
    (l.filterMap f).head? = (l.find? fun a => (f a).isSome).bind f := by
  induction l with
  | nil => rfl
  | cons a t ih =>
    cases hfa : f a with
    | some b =>
      rw [List.find?_cons_of_pos _ (by simp [hfa])]
      simp [List.filterMap_cons, hfa]
    | none =>
      rw [List.find?_cons_of_neg _ (by simp [hfa])]
      simp [List.filterMap_cons, hfa, ih]

/-- The value of the reporting-primary subset of `_determinePrimary` as
one pass over the manager ordering. -/
lemma reporting_eq_filterMap (st : EngineState) :
    (healthyInstancesInOrder st).filter (fun s => s.primary) =
      st.instanceOrder.filterMap (healthyPrimaryRecordAt st) := by
  unfold healthyInstancesInOrder
  generalize st.instanceOrder = l
  induction l with
  | nil => rfl
  | cons a t ih =>
    cases hlk : st.instances.lookup a with
    | none =>
      have h1 : healthyRecordAt st a = none := by unfold healthyRecordAt; rw [hlk]
      have h2 : healthyPrimaryRecordAt st a = none := by unfold healthyPrimaryRecordAt; rw [hlk]
      simp [List.filterMap_cons, h1, h2, ih]
    | some s =>
      by_cases hh : s.healthy = true
      · by_cases hp : s.primary = true
        · have h1 : healthyRecordAt st a = some s := by
            unfold healthyRecordAt; rw [hlk]; simp [hh]
          have h2 : healthyPrimaryRecordAt st a = some s := by
            unfold healthyPrimaryRecordAt; rw [hlk]; simp [hh, hp]
          simp [List.filterMap_cons, h1, h2, List.filter_cons, hp, ih]
        · have h1 : healthyRecordAt st a = some s := by
            unfold healthyRecordAt; rw [hlk]; simp [hh]
          have h2 : healthyPrimaryRecordAt st a = none := by
            unfold healthyPrimaryRecordAt; rw [hlk]
            simp [Bool.not_eq_true] at hp
            simp [hp]
          simp only [Bool.not_eq_true] at hp
          simp [List.filterMap_cons, h1, h2, List.filter_cons, hp, ih]
      · have h1 : healthyRecordAt st a = none := by
          unfold healthyRecordAt; rw [hlk]
          simp [Bool.not_eq_true] at hh
          simp [hh]
        have h2 : healthyPrimaryRecordAt st a = none := by
          unfold healthyPrimaryRecordAt; rw [hlk]
          simp [Bool.not_eq_true] at hh
          simp [hh]
        simp [List.filterMap_cons, h1, h2, ih]

/-- The reporting-primary record at an id exists iff the id is healthy
and reporting primary. -/
lemma isSome_healthyPrimaryRecordAt (st : EngineState) (id : String) :
    (healthyPrimaryRecordAt st id).isSome = isHealthyPrimaryAt st id := by
  unfold healthyPrimaryRecordAt isHealthyPrimaryAt
  cases st.instances.lookup id with
  | none => rfl
  | some s =>
    by_cases hb : (s.healthy && s.primary) = true
    · simp [hb]
    · simp only [Bool.not_eq_true] at hb
      simp [hb]

/-- The healthy record at an id exists iff the id is healthy. -/
lemma isSome_healthyRecordAt (st : EngineState) (id : String) :
    (healthyRecordAt st id).isSome = isHealthyAt st id := by
  unfold healthyRecordAt isHealthyAt
  cases st.instances.lookup id with
  | none => rfl
  | some s =>
    by_cases hh : s.healthy = true
    · simp [hh]
    · simp only [Bool.not_eq_true] at hh
      simp [hh]

/-- When neither sticky guard holds, `_determinePrimary` assigns the
claimed-election / fallback / none selection. -/
lemma determinePrimary_select (st : EngineState)
    (h1 : stickyValidApplies st = false) (h2 : stickyUncontestedApplies st = false) :
    (determinePrimary st).1.effectivePrimaryId =
      match (healthyInstancesInOrder st).filter (fun s => s.primary) with
      | p :: _ => EPrim.inst p.id
      | [] =>
        match healthyInstancesInOrder st with
        | h :: _ => EPrim.inst h.id
        | [] => EPrim.nullv := by
  unfold determinePrimary
  rw [if_neg (by rw [h1]; exact Bool.false_ne_true),
    if_neg (by rw [h2]; exact Bool.false_ne_true)]
  dsimp only
  generalize (healthyInstancesInOrder st).filter (fun s => s.primary) = repl
  cases repl with
  | cons p rest =>
    dsimp only
    by_cases hbe : (EPrim.inst p.id == st.effectivePrimaryId) = true
    · rw [if_pos hbe]
      exact (beq_iff_eq.mp hbe).symm
    · rw [if_neg hbe]
  | nil =>
    generalize healthyInstancesInOrder st = hl
    cases hl with
    | cons h t =>
      dsimp only
      by_cases hbe : (EPrim.inst h.id == st.effectivePrimaryId) = true
      · rw [if_pos hbe]
        exact (beq_iff_eq.mp hbe).symm
      · rw [if_neg hbe]
    | nil =>
      dsimp only
      by_cases hbe : (EPrim.nullv == st.effectivePrimaryId) = true
      · rw [if_pos hbe]
        exact (beq_iff_eq.mp hbe).symm
      · rw [if_neg hbe]

/-- Claim C2: for every selector run in which the previous effective
primary exists in the registry, is healthy, and reports primary, the
effective primary id (indeed the whole engine state) is unchanged by
the run, even when other healthy instances also report primary
(split-brain): an error is logged listing the contenders but the
selection does not switch. -/
theorem claim_C2_sticky_valid (st : EngineState) (c : InstanceState)
    (hcp : currentPrimaryOf st = some c) (hh : c.healthy = true) (hp : c.primary = true) :
    (determinePrimary st).1 = st ∧
    ((∃ p ∈ st.instances, p.1 ≠ c.id ∧ p.2.healthy = true ∧ p.2.primary = true) →
      ∃ others, (determinePrimary st).2 = [LogEvent.splitBrainStay c.id others] ∧
        ∀ k, (k ∈ others ↔ ∃ s, (k, s) ∈ st.instances ∧ k ≠ c.id ∧
          s.healthy = true ∧ s.primary = true)) := by
  have hsv : stickyValidApplies st = true := by
    unfold stickyValidApplies
    rw [hcp]
    dsimp only
    rw [hh, hp]
    rfl
  have hdp : determinePrimary st = (st, checkSplitBrain st c) := by
    unfold determinePrimary
    rw [if_pos hsv, hcp]
  refine ⟨by rw [hdp], ?_⟩
  rintro ⟨p, hmem, hne, hph, hpp⟩
  rw [hdp]
  unfold checkSplitBrain
  have hpmem : p.1 ∈ st.instances.filterMap fun q =>
      if q.1 != c.id && q.2.healthy && q.2.primary then some q.1 else none := by
    refine List.mem_filterMap.mpr ⟨p, hmem, ?_⟩
    rw [if_pos (by simp [hne, hph, hpp])]
  have hnonempty : (st.instances.filterMap fun q =>
      if q.1 != c.id && q.2.healthy && q.2.primary then some q.1 else none) ≠ [] :=
    List.ne_nil_of_mem hpmem
  rw [if_neg (by simpa [List.isEmpty_iff] using hnonempty)]
  refine ⟨_, rfl, fun k => ?_⟩
  constructor
  · intro hk
    obtain ⟨q, hqmem, hq⟩ := List.mem_filterMap.mp hk
    by_cases hcond : (q.1 != c.id && q.2.healthy && q.2.primary) = true
    · rw [if_pos hcond] at hq
      injection hq with hq
      subst hq
      simp only [Bool.and_eq_true, bne_iff_ne, ne_eq] at hcond
      exact ⟨q.2, by rw [Prod.mk.eta]; exact hqmem, hcond.1.1, hcond.1.2, hcond.2⟩
    · rw [if_neg hcond] at hq
      exact absurd hq (by simp)
  · rintro ⟨s, hsm, hkne, hsh, hsp⟩
    refine List.mem_filterMap.mpr ⟨(k, s), hsm, ?_⟩
    rw [if_pos (by simp [hkne, hsh, hsp])]

/-- Witness for C2 at a concrete split-brain state: both instances are
healthy and report primary, the current primary is kept and the error
lists the contender. -/
theorem claim_C2_witness :
    (determinePrimary w2).1 = w2 ∧
    ((∃ p ∈ w2.instances, p.1 ≠ (mkInst "A" true true).id ∧ p.2.healthy = true ∧
        p.2.primary = true) →
      ∃ others, (determinePrimary w2).2 =
          [LogEvent.splitBrainStay (mkInst "A" true true).id others] ∧
        ∀ k, (k ∈ others ↔ ∃ s, (k, s) ∈ w2.instances ∧ k ≠ (mkInst "A" true true).id ∧
          s.healthy = true ∧ s.primary = true)) :=
  claim_C2_sticky_valid w2 (mkInst "A" true true) rfl rfl rfl

/-- Claim C3, counterexample to the original statement: the previous
effective primary "A" exists, is healthy, does not report primary, and
another registered instance "B" does report primary (so the claimed
condition "no other instance reports primary" fails) — yet, because "B"
is unhealthy, the selector keeps "A" unchanged.  The id is therefore
not unchanged under exactly the claimed condition. -/
theorem claim_C3_counterexample :
    (determinePrimary w3).1.effectivePrimaryId = w3.effectivePrimaryId ∧
    (∃ p ∈ w3.instances, p.1 ≠ "A" ∧ p.2.primary = true) := by
  constructor
  · decide
  · decide

/-- Claim C3 (amended): for every selector run in which the previous
effective primary exists, is healthy, but does not report primary, the
effective primary id is unchanged exactly when no other HEALTHY
instance reports primary; a primary report from an unhealthy instance
is invisible to the selector.  (Stated over well-formed registries:
records keyed by their own id, unique keys, every registered key present
in the preserved manager ordering.) -/
theorem claim_C3_sticky_uncontested (st : EngineState) (c : InstanceState)
    (hwk : st.instances.wellKeyed = true)
    (hnd : (st.instances.map Prod.fst).Nodup)
    (hord : ∀ p ∈ st.instances, p.1 ∈ st.instanceOrder)
    (hcp : currentPrimaryOf st = some c)
    (hh : c.healthy = true) (hp : c.primary = false) :
    ((determinePrimary st).1.effectivePrimaryId = st.effectivePrimaryId ↔
      ∀ p ∈ st.instances, p.2.healthy = true → p.2.primary = false) := by
  have hsv : stickyValidApplies st = false := by
    unfold stickyValidApplies
    rw [hcp]
    dsimp only
    rw [hh, hp]
    rfl
  constructor
  · intro hunch p hmem hph
    by_contra hppne
    rw [Bool.not_eq_false] at hppne
    have hlk : st.instances.lookup p.1 = some p.2 :=
      lookup_of_mem_nodup _ _ _ hnd (by rw [Prod.mk.eta]; exact hmem)
    have hord1 : p.1 ∈ st.instanceOrder := hord p hmem
    have hrepmem : p.2 ∈ (healthyInstancesInOrder st).filter (fun s => s.primary) := by
      rw [reporting_eq_filterMap]
      refine List.mem_filterMap.mpr ⟨p.1, hord1, ?_⟩
      unfold healthyPrimaryRecordAt
      rw [hlk]
      simp [hph, hppne]
    have hsu : stickyUncontestedApplies st = false := by
      unfold stickyUncontestedApplies
      rw [hcp]
      dsimp only
      rw [hh]
      have hne : ((healthyInstancesInOrder st).filter fun s => s.primary) ≠ [] :=
        List.ne_nil_of_mem hrepmem
      simp [List.isEmpty_iff, hne]
    rw [determinePrimary_select st hsv hsu] at hunch
    obtain ⟨pid, hep, hpid, hlkc⟩ := currentPrimaryOf_some_spec st c hcp
    cases hrep : (healthyInstancesInOrder st).filter (fun s => s.primary) with
    | nil => exact absurd (hrep ▸ hrepmem) (List.not_mem_nil _)
    | cons q rest =>
      rw [hrep, hep] at hunch
      dsimp only at hunch
      injection hunch with hqid
      have hqmem : q ∈ (healthyInstancesInOrder st).filter (fun s => s.primary) := by
        rw [hrep]; exact List.mem_cons_self _ _
      rw [reporting_eq_filterMap] at hqmem
      obtain ⟨idq, hidq, hgq⟩ := List.mem_filterMap.mp hqmem
      unfold healthyPrimaryRecordAt at hgq
      cases hlkq : st.instances.lookup idq with
      | none => rw [hlkq] at hgq; exact absurd hgq (by simp)
      | some s =>
        rw [hlkq] at hgq
        dsimp only at hgq
        by_cases hcond : (s.healthy && s.primary) = true
        · rw [if_pos hcond] at hgq
          injection hgq with hgq
          subst hgq
          have hqid2 : s.id = idq := lookup_wellKeyed st.instances idq s hwk hlkq
          rw [hqid2] at hqid
          rw [hqid] at hlkq
          rw [hlkq] at hlkc
          injection hlkc with hqc
          rw [hqc] at hcond
          rw [hp] at hcond
          simp at hcond
        · rw [if_neg hcond] at hgq
          exact absurd hgq (by simp)
  · intro hall
    have hrepnil : (healthyInstancesInOrder st).filter (fun s => s.primary) = [] := by
      rw [reporting_eq_filterMap]
      rw [List.filterMap_eq_nil_iff]
      intro id hid
      unfold healthyPrimaryRecordAt
      cases hlk : st.instances.lookup id with
      | none => rfl
      | some s =>
        obtain ⟨k, hkmem⟩ := lookup_mem st.instances id s hlk
        have hcond : (s.healthy && s.primary) = false := by
          cases hsh : s.healthy
          · simp
          · have hsp := hall (k, s) hkmem hsh
            simp only at hsp
            simp [hsp]
        dsimp only
        rw [if_neg (by simp [hcond])]
    have hsu : stickyUncontestedApplies st = true := by
      unfold stickyUncontestedApplies
      rw [hcp]
      dsimp only
      rw [hh, hrepnil]
      rfl
    unfold determinePrimary
    rw [if_neg (by rw [hsv]; exact Bool.false_ne_true), if_pos hsu]

/-- Witness for the amended C3 at a concrete state: current primary
healthy and not reporting primary, the only reporting instance
unhealthy; the id is unchanged and indeed no healthy instance reports
primary. -/
theorem claim_C3_witness :
    ((determinePrimary w3).1.effectivePrimaryId = w3.effectivePrimaryId ↔
      ∀ p ∈ w3.instances, p.2.healthy = true → p.2.primary = false) :=
  claim_C3_sticky_uncontested w3 (mkInst "A" true false) (by decide) (by decide)
    (by decide) rfl rfl rfl

/-- Claim C4: for every selector run in which neither sticky rule
applies, the new effective primary is the first instance in Manager
ordering that is healthy and reports primary, if any; otherwise the
first healthy instance in Manager ordering (fallback); otherwise null.
Tie-breaks use only the Manager-supplied ordering preserved by the
registry. -/
theorem claim_C4_election_fallback (st : EngineState)
    (hwk : st.instances.wellKeyed = true)
    (h1 : stickyValidApplies st = false)
    (h2 : stickyUncontestedApplies st = false) :
    (determinePrimary st).1.effectivePrimaryId =
      match st.instanceOrder.find? (fun id => isHealthyPrimaryAt st id) with
      | some id => EPrim.inst id
      | none =>
        match st.instanceOrder.find? (fun id => isHealthyAt st id) with
        | some id => EPrim.inst id
        | none => EPrim.nullv := by
  rw [determinePrimary_select st h1 h2]
  have hPfun : (fun id => (healthyPrimaryRecordAt st id).isSome) =
      fun id => isHealthyPrimaryAt st id := funext (isSome_healthyPrimaryRecordAt st)
  have hHfun : (fun id => (healthyRecordAt st id).isSome) =
      fun id => isHealthyAt st id := funext (isSome_healthyRecordAt st)
  have hheadP := head_filterMap_eq_bind_find (healthyPrimaryRecordAt st) st.instanceOrder
  have hheadH := head_filterMap_eq_bind_find (healthyRecordAt st) st.instanceOrder
  rw [hPfun] at hheadP
  rw [hHfun] at hheadH
  rw [← reporting_eq_filterMap] at hheadP
  have hHdef : healthyInstancesInOrder st = st.instanceOrder.filterMap (healthyRecordAt st) :=
    rfl
  rw [← hHdef] at hheadH
  cases hfp : st.instanceOrder.find? (fun id => isHealthyPrimaryAt st id) with
  | some id =>
    rw [hfp] at hheadP
    have hpred := List.find?_some hfp
    simp only at hpred
    unfold isHealthyPrimaryAt at hpred
    cases hlk : st.instances.lookup id with
    | none => rw [hlk] at hpred; exact absurd hpred (by simp)
    | some s =>
      rw [hlk] at hpred
      dsimp only at hpred
      have hgid : healthyPrimaryRecordAt st id = some s := by
        unfold healthyPrimaryRecordAt
        rw [hlk]
        dsimp only
        rw [if_pos hpred]
      rw [Option.some_bind', hgid] at hheadP
      cases hrep : (healthyInstancesInOrder st).filter (fun s => s.primary) with
      | nil => rw [hrep] at hheadP; exact absurd hheadP (by simp)
      | cons q rest =>
        rw [hrep] at hheadP
        simp only [List.head?_cons, Option.some.injEq] at hheadP
        have hsid : s.id = id := lookup_wellKeyed st.instances id s hwk hlk
        rw [hheadP]
        exact congrArg EPrim.inst hsid
  | none =>
    rw [hfp] at hheadP
    have hrepnil : (healthyInstancesInOrder st).filter (fun s => s.primary) = [] := by
      cases hrep : (healthyInstancesInOrder st).filter (fun s => s.primary) with
      | nil => rfl
      | cons q rest => rw [hrep] at hheadP; exact absurd hheadP (by simp)
    rw [hrepnil]
    cases hfh : st.instanceOrder.find? (fun id => isHealthyAt st id) with
    | some id =>
      rw [hfh] at hheadH
      have hpred := List.find?_some hfh
      simp only at hpred
      unfold isHealthyAt at hpred
      cases hlk : st.instances.lookup id with
      | none => rw [hlk] at hpred; exact absurd hpred (by simp)
      | some s =>
        rw [hlk] at hpred
        dsimp only at hpred
        have hgid : healthyRecordAt st id = some s := by
          unfold healthyRecordAt
          rw [hlk]
          dsimp only
          rw [if_pos hpred]
        rw [Option.some_bind', hgid] at hheadH
        cases hhl : healthyInstancesInOrder st with
        | nil => rw [hhl] at hheadH; exact absurd hheadH (by simp)
        | cons q rest =>
          rw [hhl] at hheadH
          simp only [List.head?_cons, Option.some.injEq] at hheadH
          have hsid : s.id = id := lookup_wellKeyed st.instances id s hwk hlk
          rw [hheadH]
          exact congrArg EPrim.inst hsid
    | none =>
      rw [hfh] at hheadH
      have hhlnil : healthyInstancesInOrder st = [] := by
        cases hhl : healthyInstancesInOrder st with
        | nil => rfl
        | cons q rest => rw [hhl] at hheadH; exact absurd hheadH (by simp)
      rw [hhlnil]

/-- Witness for C4 at a concrete state: the current primary is
unhealthy (no sticky rule applies); "B" is the first healthy instance
reporting primary and is elected. -/
theorem claim_C4_witness :
    (determinePrimary w4).1.effectivePrimaryId =
      match w4.instanceOrder.find? (fun id => isHealthyPrimaryAt w4 id) with
      | some id => EPrim.inst id
      | none =>
        match w4.instanceOrder.find? (fun id => isHealthyAt w4 id) with
        | some id => EPrim.inst id
        | none => EPrim.nullv :=
  claim_C4_election_fallback w4 (by decide) (by decide) (by decide)

/-- Witness for C9 at concrete states: the undefined marker maps to
null, a set primary id is returned as is. -/
theorem claim_C9_witness :
    getEffectivePrimaryId (baseEngine [] [] EPrim.undef) = none ∧
    getEffectivePrimaryId (baseEngine [] [] (EPrim.inst "A")) = some "A" :=
  ⟨(claim_C9_getter_collapses_undef (baseEngine [] [] EPrim.undef)).1 rfl,
   (claim_C9_getter_collapses_undef (baseEngine [] [] (EPrim.inst "A"))).2.2 "A" rfl⟩

/-- An in-place record update never changes the key list. -/
lemma map_fst_update (r : Registry) (k : String) (f : InstanceState → InstanceState) :
    (r.update k f).map Prod.fst = r.map Prod.fst := by
  unfold Registry.update
  rw [List.map_map]
  apply List.map_congr_left
  intro p hp
  by_cases hc : p.1 = k <;> simp [hc]

/-- `hasKey` through the key list. -/
lemma hasKey_eq_any_fst (r : Registry) (k : String) :
    r.hasKey k = (r.map Prod.fst).any fun x => x == k := by
  unfold Registry.hasKey
  induction r with
  | nil => rfl
  | cons p t ih => simp [List.any_cons, ih]

/-- An in-place record update never changes key membership. -/
lemma hasKey_update (r : Registry) (k k2 : String) (f : InstanceState → InstanceState) :
    (r.update k f).hasKey k2 = r.hasKey k2 := by
  rw [hasKey_eq_any_fst, hasKey_eq_any_fst, map_fst_update]

/-- Clearing only the reconnect handle leaves id, connection state,
transport presence and health of every record unchanged. -/
lemma map_proj_update_reconnect (r : Registry) (k : String) :
    ((r.update k fun q => { q with reconnectTimer := false }).map
        fun p => (p.1, p.2.wsState, p.2.hasWs, p.2.healthy)) =
      r.map fun p => (p.1, p.2.wsState, p.2.hasWs, p.2.healthy) := by
  unfold Registry.update
  rw [List.map_map]
  apply List.map_congr_left
  intro p hp
  by_cases hc : p.1 = k <;> simp [hc]

/-- Opening a connection never changes the key list. -/
lemma map_fst_open (st : EngineState) (id : String) :
    (openInstanceConnection st id).instances.map Prod.fst = st.instances.map Prod.fst := by
  unfold openInstanceConnection
  cases hl : st.instances.lookup id with
  | none => rfl
  | some s =>
    dsimp only
    by_cases hc : (s.wsState != WsState.disconnected) = true
    · rw [if_pos hc]
    · rw [if_neg hc]
      dsimp only
      exact map_fst_update _ _ _

/-- Claim C10: when a scheduled reconnect fires after the engine has
been stopped or after its id has been removed from the registry, the
callback opens no connection and leaves every record's membership,
connection state, transport and health unchanged; in every case the
callback preserves registry membership and only opens a connection for
a registered id of a running engine. -/
theorem claim_C10_reconnect_guard (st : EngineState) (instanceId : String) :
    ((reconnectFire st instanceId).1.instances.map Prod.fst = st.instances.map Prod.fst) ∧
    ((reconnectFire st instanceId).2 = true →
      st.running = true ∧ st.instances.hasKey instanceId = true) ∧
    ((st.running = false ∨ st.instances.hasKey instanceId = false) →
      (reconnectFire st instanceId).2 = false ∧
      ((reconnectFire st instanceId).1.instances.map
          fun p => (p.1, p.2.wsState, p.2.hasWs, p.2.healthy)) =
        st.instances.map fun p => (p.1, p.2.wsState, p.2.hasWs, p.2.healthy)) := by
  unfold reconnectFire
  dsimp only
  rw [hasKey_update]
  by_cases hg : (!st.running || !(st.instances.hasKey instanceId)) = true
  · rw [if_pos hg]
    refine ⟨?_, ?_, ?_⟩
    · dsimp only
      exact map_fst_update _ _ _
    · intro hfalse
      exact absurd hfalse (by simp)
    · intro hdis
      exact ⟨rfl, by dsimp only; exact map_proj_update_reconnect _ _⟩
  · rw [if_neg hg]
    simp only [Bool.or_eq_true, Bool.not_eq_true', not_or] at hg
    push_neg at hg
    obtain ⟨hrun, hkey⟩ := hg
    refine ⟨?_, ?_, ?_⟩
    · dsimp only
      rw [map_fst_open]
      dsimp only
      exact map_fst_update _ _ _
    · intro _
      exact ⟨by simpa using hrun, by simpa using hkey⟩
    · intro hdis
      rcases hdis with hd | hd
      · exact absurd hd hrun
      · exact absurd hd hkey

/-- Witness for C10: a stopped engine with a registered instance; the
fired callback opens nothing and preserves the record's state. -/
theorem claim_C10_witness :
    (reconnectFire w10 "A").2 = false ∧
    ((reconnectFire w10 "A").1.instances.map
        fun p => (p.1, p.2.wsState, p.2.hasWs, p.2.healthy)) =
      w10.instances.map fun p => (p.1, p.2.wsState, p.2.hasWs, p.2.healthy) :=
  (claim_C10_reconnect_guard w10 "A").2.2 (Or.inl rfl)

/-- Re-registering variable definitions leaves everything except the
stored count unchanged. -/
lemma umvd_preserves (st : EngineState) :
    (updateModuleVariableDefinitions st).manualRuleDefinitions = st.manualRuleDefinitions ∧
    (updateModuleVariableDefinitions st).variableDefinitions = st.variableDefinitions ∧
    (updateModuleVariableDefinitions st).lastChannelId = st.lastChannelId ∧
    (updateModuleVariableDefinitions st).lastRulesJson = st.lastRulesJson ∧
    (updateModuleVariableDefinitions st).lastVariablesJson = st.lastVariablesJson ∧
    (updateModuleVariableDefinitions st).config = st.config ∧
    (updateModuleVariableDefinitions st).instances = st.instances ∧
    (updateModuleVariableDefinitions st).instanceOrder = st.instanceOrder := by
  unfold updateModuleVariableDefinitions
  dsimp only
  split
  · exact ⟨rfl, rfl, rfl, rfl, rfl, rfl, rfl, rfl⟩
  · exact ⟨rfl, rfl, rfl, rfl, rfl, rfl, rfl, rfl⟩

/-- Pushing module status leaves everything except the tracked status
fields unchanged. -/
lemma ums_preserves (st : EngineState) :
    (updateModuleStatus st).manualRuleDefinitions = st.manualRuleDefinitions ∧
    (updateModuleStatus st).variableDefinitions = st.variableDefinitions ∧
    (updateModuleStatus st).lastChannelId = st.lastChannelId ∧
    (updateModuleStatus st).lastRulesJson = st.lastRulesJson ∧
    (updateModuleStatus st).lastVariablesJson = st.lastVariablesJson ∧
    (updateModuleStatus st).config = st.config ∧
    (updateModuleStatus st).instances = st.instances ∧
    (updateModuleStatus st).instanceOrder = st.instanceOrder := by
  unfold updateModuleStatus
  dsimp only
  split
  · exact ⟨rfl, rfl, rfl, rfl, rfl, rfl, rfl, rfl⟩
  · exact ⟨rfl, rfl, rfl, rfl, rfl, rfl, rfl, rfl⟩

/-- Claim C5 (amended): a Manager-poll cycle with a channel selected
whose rules / variables / instances fetch fails leaves the stored rule
and variable definitions, the change-detection fingerprints, the cache,
and the instance registry (keys, records and connection states)
unchanged — provided the cold-start cache path is not taken (registry
non-empty, or definitions already loaded from cache this session).
(The original unqualified claim fails on a cold start, where the
failure path loads or clears the cache.) -/
theorem claim_C5_fetch_failure_preserves (st : EngineState) (now : Int)
    (hcold : st.instances ≠ [] ∨ st.loadedFromCache = true) :
    (pollChannelPhase st FetchTrio.failure now).manualRuleDefinitions
        = st.manualRuleDefinitions ∧
    (pollChannelPhase st FetchTrio.failure now).variableDefinitions
        = st.variableDefinitions ∧
    (pollChannelPhase st FetchTrio.failure now).lastChannelId = st.lastChannelId ∧
    (pollChannelPhase st FetchTrio.failure now).lastRulesJson = st.lastRulesJson ∧
    (pollChannelPhase st FetchTrio.failure now).lastVariablesJson = st.lastVariablesJson ∧
    (pollChannelPhase st FetchTrio.failure now).config.definition_cache
        = st.config.definition_cache ∧
    (pollChannelPhase st FetchTrio.failure now).instances = st.instances ∧
    (pollChannelPhase st FetchTrio.failure now).instanceOrder = st.instanceOrder := by
  have hskip : (st.instances.isEmpty && !st.loadedFromCache) = false := by
    rcases hcold with h1 | h2
    · simp [List.isEmpty_iff, h1]
    · simp [h2]
  unfold pollChannelPhase
  dsimp only
  by_cases hfirst : (0 < st.instances.length ∧ st.managerReachable = some true)
  · rw [if_pos hfirst]
    dsimp only
    rw [if_neg (by rw [hskip]; exact Bool.false_ne_true)]
    refine ⟨?_, ?_, ?_, ?_, ?_, ?_, ?_, ?_⟩
    · exact ((ums_preserves _).1).trans ((umvd_preserves _).1)
    · exact ((ums_preserves _).2.1).trans ((umvd_preserves _).2.1)
    · exact ((ums_preserves _).2.2.1).trans ((umvd_preserves _).2.2.1)
    · exact ((ums_preserves _).2.2.2.1).trans ((umvd_preserves _).2.2.2.1)
    · exact ((ums_preserves _).2.2.2.2.1).trans ((umvd_preserves _).2.2.2.2.1)
    · exact congrArg Config.definition_cache
        (((ums_preserves _).2.2.2.2.2.1).trans ((umvd_preserves _).2.2.2.2.2.1))
    · exact ((ums_preserves _).2.2.2.2.2.2.1).trans ((umvd_preserves _).2.2.2.2.2.2.1)
    · exact ((ums_preserves _).2.2.2.2.2.2.2).trans ((umvd_preserves _).2.2.2.2.2.2.2)
  · rw [if_neg hfirst]
    rw [if_neg (by rw [hskip]; exact Bool.false_ne_true)]
    refine ⟨?_, ?_, ?_, ?_, ?_, ?_, ?_, ?_⟩
    · exact ((ums_preserves _).1).trans ((umvd_preserves _).1)
    · exact ((ums_preserves _).2.1).trans ((umvd_preserves _).2.1)
    · exact ((ums_preserves _).2.2.1).trans ((umvd_preserves _).2.2.1)
    · exact ((ums_preserves _).2.2.2.1).trans ((umvd_preserves _).2.2.2.1)
    · exact ((ums_preserves _).2.2.2.2.1).trans ((umvd_preserves _).2.2.2.2.1)
    · exact congrArg Config.definition_cache
        (((ums_preserves _).2.2.2.2.2.1).trans ((umvd_preserves _).2.2.2.2.2.1))
    · exact ((ums_preserves _).2.2.2.2.2.2.1).trans ((umvd_preserves _).2.2.2.2.2.2.1)
    · exact ((ums_preserves _).2.2.2.2.2.2.2).trans ((umvd_preserves _).2.2.2.2.2.2.2)

/-- Claim C5, counterexample to the original statement: on a cold start
(channel selected, empty registry, nothing loaded from cache, corrupt
persisted cache, manager reachable) a failing fetch trio changes the
cache — the failure path clears the invalid cache while attempting the
cold-start cache load. -/
theorem claim_C5_counterexample :
    (pollChannelPhase c5state FetchTrio.failure 0).config.definition_cache ≠
      c5state.config.definition_cache := by
  decide

/-- Witness for the amended C5 at a concrete state with one live
connection: the failing cycle preserves all listed state. -/
theorem claim_C5_witness :
    (pollChannelPhase c5live FetchTrio.failure 7).manualRuleDefinitions
        = c5live.manualRuleDefinitions ∧
    (pollChannelPhase c5live FetchTrio.failure 7).variableDefinitions
        = c5live.variableDefinitions ∧
    (pollChannelPhase c5live FetchTrio.failure 7).lastChannelId = c5live.lastChannelId ∧
    (pollChannelPhase c5live FetchTrio.failure 7).lastRulesJson = c5live.lastRulesJson ∧
    (pollChannelPhase c5live FetchTrio.failure 7).lastVariablesJson
        = c5live.lastVariablesJson ∧
    (pollChannelPhase c5live FetchTrio.failure 7).config.definition_cache
        = c5live.config.definition_cache ∧
    (pollChannelPhase c5live FetchTrio.failure 7).instances = c5live.instances ∧
    (pollChannelPhase c5live FetchTrio.failure 7).instanceOrder = c5live.instanceOrder :=
  claim_C5_fetch_failure_preserves c5live 7 (Or.inl (by decide))
